import Mathlib

/-!
Verification of the transmit/receive scheduling engine of the simulated
packet radio (`src/src/platform/portduino/SimRadio.cpp`).

The embedding is a shallow one: the mutable fields of the `SimRadio`
object become a `SimState` record, and each member function becomes a
Lean function from state to state.  Side effects that cross the
component boundary (releasing a packet to the pool, arming the transmit
delay timer, logging airtime, handing a packet to the phone/simulator
transport, delivering a decoded packet to the router) are recorded as an
emitted list of `Action`s, so theorems can speak about exactly which
external effects a step performs.  Fatal assertion failures
(`assert(0)`, `assert(isReceiving)`, `assert(txp)`, and the null
dereference of `getFront` on an empty queue) are modelled by returning
`none`.

The blocking `delay(...)` calls of the source are the event loop: the
code arms a timer by sleeping and then re-entering `onNotify`.  In the
embedding, arming a delay is the emitted action `Action.armDelay`, and a
later `TRANSMIT_DELAY_COMPLETED` notification is delivered as a separate
step, which matches the serial event delivery the design assumes.
-/

namespace SimRadio

/-- A mesh packet, with the fields the scheduler reads.  `rx_snr` is a
float in the source; only its comparison with zero and its identity are
used by this unit, so it is modelled as an integer. -/
structure MeshPacket where
  fromNode : Nat
  id : Nat
  hop_limit : Nat
  rx_snr : Int
  rx_rssi : Int
  portnum : Nat
  payloadSize : Nat
  payloadBytes : List Nat
  which_payload_variant : Nat
  deriving DecidableEq, Repr

/-- Modelled from the spec: the error-code vocabulary of the submit
interface, `ErrorCode` with members Ok, QueueFull, Unknown (§6).  The
source file
uses the codes `ERRNO_OK` and `ERRNO_UNKNOWN`, whose definitions live
outside this repository slice. -/
inductive ErrorCode where
  | ok
  | queueFull
  | unknown
  deriving DecidableEq, Repr

/-- The kind of transmit delay armed by the scheduler: `nominal` is the
fixed 1 ms recheck delay (`withDelay = false`), `uniformRandom` is the
uniform random collision-avoidance delay (`getTxDelayMsec`), and
`snrWeighted` is the SNR-scaled delay (`getTxDelayMsecWeighted`). -/
inductive DelayKind where
  | nominal
  | uniformRandom
  | snrWeighted (snr : Int)
  deriving DecidableEq, Repr

/-- Direction tag for airtime accounting (`TX_LOG` / `RX_LOG`). -/
inductive LogDir where
  | txLog
  | rxLog
  deriving DecidableEq, Repr

/-- Externally visible effects a scheduler step can perform. -/
inductive Action where
  | release (p : MeshPacket)
  | armDelay (k : DelayKind)
  | logAirtime (d : LogDir) (ms : Nat)
  | warn
  | sendToPhone (p : MeshPacket)
  | deliverToReceiver (p : MeshPacket)
  deriving DecidableEq, Repr

/-- The mutable state of the `SimRadio` object: the bounded transmit
queue (front of the list is the front of the queue) with its fixed
capacity, the packet currently on air (if any), the receive-in-progress
flag, and the success counter. -/
structure SimState where
  txQueue : List MeshPacket
  txQueueMaxLen : Nat
  sendingPacket : Option MeshPacket
  isReceiving : Bool
  txGood : Nat
  deriving DecidableEq, Repr

/-- Modelled from the spec: the closed notification set delivered to the
dispatcher (§4.6); the numeric tags come from the radio-interface header
outside this slice — only their distinctness matters. -/
def ISR_RX : Nat := 1

/-- Modelled from the spec: transmit-ISR-complete notification tag. -/
def ISR_TX : Nat := 2

/-- Modelled from the spec: delay-expired notification tag. -/
def TRANSMIT_DELAY_COMPLETED : Nat := 3

/-- Modelled from the spec: the reserved simulator/link port tag
(`PortNum_SIMULATOR_APP`, value 69 in the wire schema, which lives
outside this slice). -/
def PortNum_SIMULATOR_APP : Nat := 69

/-- Modelled from the spec: the packet is marked as carrying a decoded
payload (`MeshPacket_decoded_tag`); the tag value is opaque here. -/
def MeshPacket_decoded_tag : Nat := 4

/-- Modelled from the spec: the fixed compile-time capacity of the
`Compressed` envelope's byte array (`sizeof(c.data.bytes)`), a constant
of the wire schema outside this slice. -/
def compressedDataCapacity : Nat := 237

/-- Modelled from the spec: size of the LoRa packet header added by
`getPacketLength` (`sizeof(PacketHeader)`). -/
def packetHeaderSize : Nat := 16

/-- Modelled from the spec: the airtime duration formula
`durationMs = lengthBytes * 8 * 1000 / bitRateBps` (§4.5); the bit rate
is a fixed positive configuration constant. -/
def bitRateBps : Nat := 5469

/-- Embedding of `SimRadio::getPacketLength`: payload size plus the packet header. -/
def getPacketLength (mp : MeshPacket) : Nat :=
  mp.payloadSize + packetHeaderSize

/-- Modelled from the spec: `getPacketTime` converts a frame length to
its on-air duration using the formula of §4.5. -/
def getPacketTime (length : Nat) : Nat :=
  length * 8 * 1000 / bitRateBps

/-- Embedding of `SimRadio::isActivelyReceiving`: stubbed to `false` in the simulated
environment. -/
def isActivelyReceiving (_ : SimState) : Bool :=
  false

/-- Embedding of `SimRadio::isChannelActive`: stubbed to `false` in the simulated
environment. -/
def isChannelActive (_ : SimState) : Bool :=
  false

/-- Embedding of `SimRadio::canSendImmediately`: we cannot send if a packet is on air
(`busyTx`) or we are partially through receiving one (`busyRx`). -/
def canSendImmediately (s : SimState) : Bool :=
  let busyTx := s.sendingPacket.isSome
  let busyRx := s.isReceiving && isActivelyReceiving s
  !(busyTx || busyRx)

/-- Modelled from the spec: `PacketQueue.enqueue` of the bounded FIFO
(§4.1) — fails (queue unchanged) when no free slot remains. -/
def enqueue (p : MeshPacket) (s : SimState) : Bool × SimState :=
  if s.txQueue.length < s.txQueueMaxLen then
    (true, { s with txQueue := s.txQueue ++ [p] })
  else
    (false, s)

/-- Embedding of `SimRadio::startTransmitTimer`: if the queue is non-empty, arm
either the nominal 1 ms delay or the uniform random delay and (once it
expires) deliver `TRANSMIT_DELAY_COMPLETED`. -/
def startTransmitTimer (withDelay : Bool) (s : SimState) :
    SimState × List Action :=
  if !s.txQueue.isEmpty then
    (s, [Action.armDelay (if withDelay then DelayKind.uniformRandom
                          else DelayKind.nominal)])
  else
    (s, [])

/-- Embedding of `SimRadio::startTransmitTimerSNR`: if the queue is non-empty, arm
the SNR-weighted delay. -/
def startTransmitTimerSNR (snr : Int) (s : SimState) :
    SimState × List Action :=
  if !s.txQueue.isEmpty then
    (s, [Action.armDelay (DelayKind.snrWeighted snr)])
  else
    (s, [])

/-- Embedding of `SimRadio::setTransmitDelay`: inspect the packet at the front of the
queue; if both signal metrics are zero the packet was generated locally
and gets the uniform random delay, otherwise the SNR-scaled delay.
`getFront` on an empty queue dereferences null — modelled as `none`. -/
def setTransmitDelay (s : SimState) : Option (SimState × List Action) :=
  match s.txQueue.head? with
  | none => none
  | some p =>
      if p.rx_snr = 0 ∧ p.rx_rssi = 0 then
        some (startTransmitTimer true s)
      else
        some (startTransmitTimerSNR p.rx_snr s)

/-- Embedding of `SimRadio::send`: enqueue the packet; on failure release it (the
caller must not also free it) and report `ERRNO_UNKNOWN`; on success arm
the random transmit delay. -/
def send (p : MeshPacket) (s : SimState) :
    Option (ErrorCode × SimState × List Action) :=
  let (okQ, s1) := enqueue p s
  let res := if okQ then ErrorCode.ok else ErrorCode.unknown
  if res ≠ ErrorCode.ok then
    some (res, s1, [Action.release p])
  else
    match setTransmitDelay s1 with
    | none => none
    | some (s2, acts) => some (res, s2, acts)

/-- Embedding of `SimRadio::completeSending`: clear `sendingPacket` first, then (if a
packet was in flight) count it and release it back to the pool. -/
def completeSending (s : SimState) : SimState × List Action :=
  let p := s.sendingPacket
  let s1 := { s with sendingPacket := none }
  match p with
  | some q => ({ s1 with txGood := s1.txGood + 1 }, [Action.release q])
  | none => (s1, [])

/-- Embedding of `SimRadio::handleTransmitInterrupt`: ignore the interrupt when no
packet is in flight (standby), otherwise finalize the send. -/
def handleTransmitInterrupt (s : SimState) : SimState × List Action :=
  if s.sendingPacket.isSome then completeSending s else (s, [])

/-- The `Compressed` wire envelope: fixed-capacity byte buffer, size
field and port tag. -/
structure Compressed where
  portnum : Nat
  dataSize : Nat
  dataBytes : List Nat
  deriving DecidableEq, Repr

/-- The envelope built by `SimRadio::startSend`: starting from
`Compressed_init_default` (empty payload), the port tag records the
packet's application port; the payload is copied only when it fits in
the fixed-capacity byte array, otherwise it stays empty. -/
def frameEnvelope (p : MeshPacket) : Compressed :=
  if p.payloadSize ≤ compressedDataCapacity then
    { portnum := p.portnum, dataSize := p.payloadSize,
      dataBytes := p.payloadBytes }
  else
    { portnum := p.portnum, dataSize := 0, dataBytes := [] }

/-- Modelled from the spec: the wire serialization
(`pb_encode_to_bytes`) is an external schema library; modelled as an
injective flattening of the envelope fields. -/
def encodeCompressed (c : Compressed) : List Nat :=
  c.portnum :: c.dataSize :: c.dataBytes

/-- The framed copy `SimRadio::startSend` hands to the outbound delivery
path: the pool copy of the packet with its payload replaced by the
encoded envelope and its port identifier overwritten with the reserved
simulator/link tag. -/
def framedCopy (txp : MeshPacket) : MeshPacket :=
  let c := frameEnvelope txp
  { txp with
    payloadBytes := encodeCompressed c
    payloadSize := (encodeCompressed c).length
    portnum := PortNum_SIMULATOR_APP }

/-- Embedding of `SimRadio::startSend`: begin the low-level send (the
radio-abstraction boundary records the packet as in flight — modelled
from the spec, §4.3 transition to `Sending`), build the envelope from a
pool copy (warning the operator when the payload is dropped for being
oversized), and hand the framed copy to the phone/simulator
transport. -/
def startSend (txp : MeshPacket) (s : SimState) : SimState × List Action :=
  let s1 := { s with sendingPacket := some txp }
  let warnActs :=
    if txp.payloadSize ≤ compressedDataCapacity then ([] : List Action)
    else [Action.warn]
  (s1, warnActs ++ [Action.sendToPhone (framedCopy txp)])

/-- Embedding of `SimRadio::onNotify`: the event dispatcher.  `ISR_TX` finalizes a
send and re-arms the recheck delay (its `withDelay` default argument is
declared in a header outside this slice; modelled from the spec, §4.6:
after `TxIsrComplete` the dispatcher re-arms a nominal, non-randomized
short delay, i.e. `withDelay = false`); `ISR_RX` is a no-op hook;
`TRANSMIT_DELAY_COMPLETED` runs the transmit decision: with a non-empty
queue, if we cannot send right now or the channel is active, re-arm a
fresh delay from the head of the queue, otherwise dequeue the head,
start the framed send, charge transmit airtime, model the busy period
and complete the send.  Any other notification fails `assert(0)`. -/
def onNotify (notification : Nat) (s : SimState) :
    Option (SimState × List Action) :=
  if notification = ISR_TX then
    let (s1, a1) := handleTransmitInterrupt s
    let (s2, a2) := startTransmitTimer false s1
    some (s2, a1 ++ a2)
  else if notification = ISR_RX then
    some (s, [])
  else if notification = TRANSMIT_DELAY_COMPLETED then
    if !s.txQueue.isEmpty then
      if !canSendImmediately s then
        setTransmitDelay s
      else if isChannelActive s then
        setTransmitDelay s
      else
        match s.txQueue with
        | [] => none
        | txp :: rest =>
            let s1 := { s with txQueue := rest }
            let (s2, aSend) := startSend txp s1
            let xmitMsec := getPacketTime (getPacketLength txp)
            let (s3, aComp) := completeSending s2
            some (s3, aSend ++ [Action.logAirtime LogDir.txLog xmitMsec]
                        ++ aComp)
    else
      some (s, [])
  else
    none

/-- Modelled from the spec: `PacketQueue.removeByKey` (§4.1) — linear
scan, removes at most the first `(origin, id)` match, preserves the
relative order of the remaining items. -/
def removeByKey (fromNode : Nat) (id : Nat) :
    List MeshPacket → Option MeshPacket × List MeshPacket
  | [] => (none, [])
  | q :: qs =>
      if q.fromNode = fromNode ∧ q.id = id then
        (some q, qs)
      else
        ((removeByKey fromNode id qs).1,
         q :: (removeByKey fromNode id qs).2)

/-- Embedding of `SimRadio::cancelSending`: remove a matching packet from the waiting
queue (the in-flight packet is never touched), release it if found, and
report whether a match was removed. -/
def cancelSending (fromNode : Nat) (id : Nat) (s : SimState) :
    Bool × SimState × List Action :=
  match (removeByKey fromNode id s.txQueue).1 with
  | some p =>
      (true, { s with txQueue := (removeByKey fromNode id s.txQueue).2 },
       [Action.release p])
  | none =>
      (false, { s with txQueue := (removeByKey fromNode id s.txQueue).2 },
       [])

/-- Embedding of `SimRadio::handleReceiveInterrupt`: asserts a receive is in progress
(fatal otherwise), clears the flag, copies the frame into the pool
marked as decoded, charges receive airtime and delivers the copy. -/
def handleReceiveInterrupt (p : MeshPacket) (s : SimState) :
    Option (SimState × List Action) :=
  if s.isReceiving then
    let s1 := { s with isReceiving := false }
    let xmitMsec := getPacketTime (getPacketLength p)
    let mp := { p with which_payload_variant := MeshPacket_decoded_tag }
    some (s1, [Action.logAirtime LogDir.rxLog xmitMsec,
               Action.deliverToReceiver mp])
  else
    none

/-- Embedding of `SimRadio::startReceive`: mark the receive in progress, model the
busy period, then handle the receive completion. -/
def startReceive (p : MeshPacket) (s : SimState) :
    Option (SimState × List Action) :=
  handleReceiveInterrupt p { s with isReceiving := true }

/-- Number of transmit-side airtime log calls in an action list. -/
def countTxLogs (acts : List Action) : Nat :=
  (acts.filter fun a =>
    match a with
    | Action.logAirtime LogDir.txLog _ => true
    | _ => false).length

/-- A convenient fully idle state with the given queue capacity. -/
def idleState (cap : Nat) : SimState :=
  { txQueue := [], txQueueMaxLen := cap, sendingPacket := none,
    isReceiving := false, txGood := 0 }

/-- A sample packet used by concrete witnesses. -/
def samplePacket (fromNode id : Nat) (snr rssi : Int) : MeshPacket :=
  { fromNode := fromNode, id := id, hop_limit := 3, rx_snr := snr,
    rx_rssi := rssi, portnum := 8, payloadSize := 5,
    payloadBytes := [1, 2, 3, 4, 5], which_payload_variant := 0 }

/-- A full queue at capacity 4, used as the concrete full-queue scenario. -/
def fullState4 : SimState :=
  { txQueue := [samplePacket 1 1 0 0, samplePacket 1 2 0 0,
                samplePacket 1 3 0 0, samplePacket 1 4 0 0],
    txQueueMaxLen := 4, sendingPacket := none, isReceiving := false,
    txGood := 0 }

/-- C1 counterexample: with queue capacity 4 and 4 packets already
queued, the 5th `send` returns `ERRNO_UNKNOWN`, not a queue-full code —
the error-code vocabulary's `queueFull` member is never produced. -/
theorem C1_cex_send_full_returns_unknown :
    send (samplePacket 1 5 0 0) fullState4 =
      some (ErrorCode.unknown, fullState4,
            [Action.release (samplePacket 1 5 0 0)]) ∧
    ErrorCode.unknown ≠ ErrorCode.queueFull := by
  constructor
  · rfl
  · decide

/-- C1 (amended): every `send` call made while the transmit queue is
full returns the non-Ok error code `Unknown` (`ERRNO_UNKNOWN`), with the
packet released and the state unchanged. -/
theorem C1_send_full_returns_nonOk (p : MeshPacket) (s : SimState)
    (h : s.txQueueMaxLen ≤ s.txQueue.length) :
    send p s = some (ErrorCode.unknown, s, [Action.release p]) ∧
    ErrorCode.unknown ≠ ErrorCode.ok := by
  have h' : ¬ s.txQueue.length < s.txQueueMaxLen := Nat.not_lt.mpr h
  refine ⟨?_, by decide⟩
  simp [send, enqueue, h']

/-- C1 witness: the amended theorem at the concrete full-queue state. -/
theorem C1_send_full_returns_nonOk_witness :
    send (samplePacket 1 5 0 0) fullState4 =
      some (ErrorCode.unknown, fullState4,
            [Action.release (samplePacket 1 5 0 0)]) ∧
    ErrorCode.unknown ≠ ErrorCode.ok :=
  C1_send_full_returns_nonOk (samplePacket 1 5 0 0) fullState4 (by decide)

/-- A packet whose decoded payload exceeds the envelope capacity. -/
def oversizePacket : MeshPacket :=
  { fromNode := 2, id := 9, hop_limit := 3, rx_snr := 0, rx_rssi := 0,
    portnum := 8, payloadSize := compressedDataCapacity + 1,
    payloadBytes := List.replicate (compressedDataCapacity + 1) 7,
    which_payload_variant := 0 }

/-- C2: when the decoded payload exceeds the envelope capacity, the
outbound envelope carries an empty payload of size 0 (never a truncated
copy), a warning is emitted, and the framed copy is still handed to the
outbound delivery path (transmission proceeds). -/
theorem C2_oversize_payload_sent_empty (p : MeshPacket) (s : SimState)
    (h : compressedDataCapacity < p.payloadSize) :
    frameEnvelope p =
      { portnum := p.portnum, dataSize := 0, dataBytes := [] } ∧
    (startSend p s).2 =
      [Action.warn, Action.sendToPhone (framedCopy p)] := by
  have h' : ¬ p.payloadSize ≤ compressedDataCapacity := Nat.not_le.mpr h
  constructor
  · simp [frameEnvelope, h']
  · simp [startSend, h']

/-- C2 witness: the theorem at a concrete 238-byte payload. -/
theorem C2_oversize_payload_sent_empty_witness :
    frameEnvelope oversizePacket =
      { portnum := oversizePacket.portnum, dataSize := 0,
        dataBytes := [] } ∧
    (startSend oversizePacket (idleState 4)).2 =
      [Action.warn, Action.sendToPhone (framedCopy oversizePacket)] :=
  C2_oversize_payload_sent_empty oversizePacket (idleState 4)
    (Nat.lt_succ_self _)

/-- C3: when a transmit delay is armed for the packet at the head of the
queue, zero signal metrics select the uniform-random delay path
(`startTransmitTimer` with delay) and a non-zero SNR selects the
SNR-weighted path (`startTransmitTimerSNR`). -/
theorem C3_delay_path_selection (p : MeshPacket) (rest : List MeshPacket)
    (s : SimState) (h : s.txQueue = p :: rest) :
    (p.rx_snr = 0 ∧ p.rx_rssi = 0 →
      setTransmitDelay s =
        some (s, [Action.armDelay DelayKind.uniformRandom])) ∧
    (p.rx_snr ≠ 0 →
      setTransmitDelay s =
        some (s, [Action.armDelay (DelayKind.snrWeighted p.rx_snr)])) := by
  constructor
  · rintro ⟨h1, h2⟩
    simp [setTransmitDelay, startTransmitTimer, h, h1, h2]
  · intro h1
    simp [setTransmitDelay, startTransmitTimerSNR, h, h1]

/-- C3 witness: a locally-originated head packet takes the
uniform-random path; the SNR branch is inspected by the C4/C5
scenarios. -/
theorem C3_delay_path_selection_witness :
    ((samplePacket 1 1 0 0).rx_snr = 0 ∧
        (samplePacket 1 1 0 0).rx_rssi = 0 →
      setTransmitDelay
          { txQueue := [samplePacket 1 1 0 0], txQueueMaxLen := 4,
            sendingPacket := none, isReceiving := false, txGood := 0 } =
        some ({ txQueue := [samplePacket 1 1 0 0], txQueueMaxLen := 4,
                sendingPacket := none, isReceiving := false, txGood := 0 },
              [Action.armDelay DelayKind.uniformRandom])) ∧
    ((samplePacket 1 1 0 0).rx_snr ≠ 0 →
      setTransmitDelay
          { txQueue := [samplePacket 1 1 0 0], txQueueMaxLen := 4,
            sendingPacket := none, isReceiving := false, txGood := 0 } =
        some ({ txQueue := [samplePacket 1 1 0 0], txQueueMaxLen := 4,
                sendingPacket := none, isReceiving := false, txGood := 0 },
              [Action.armDelay
                (DelayKind.snrWeighted (samplePacket 1 1 0 0).rx_snr)])) :=
  C3_delay_path_selection (samplePacket 1 1 0 0) [] _ rfl

/-- C4: on `DelayExpired` with a non-empty queue, if we cannot send
immediately (a packet in flight, or mid-reception) or channel sense
reports activity, the dispatcher re-arms a fresh delay computed from the
packet now at the head of the queue — the state (and so the queue, head
included) is unchanged and the only emitted action is the re-armed
delay: in particular nothing is transmitted and no send begins while a
reception is in progress. -/
theorem C4_busy_rearms_delay (p : MeshPacket) (rest : List MeshPacket)
    (s : SimState) (h : s.txQueue = p :: rest)
    (hbusy : canSendImmediately s = false ∨ isChannelActive s = true) :
    onNotify TRANSMIT_DELAY_COMPLETED s =
      some (s, [Action.armDelay
        (if p.rx_snr = 0 ∧ p.rx_rssi = 0 then DelayKind.uniformRandom
         else DelayKind.snrWeighted p.rx_snr)]) := by
  rcases hbusy with hbusy | hbusy
  · simp only [onNotify, ISR_TX, ISR_RX, TRANSMIT_DELAY_COMPLETED]
    norm_num
    simp [h, hbusy, setTransmitDelay, startTransmitTimer,
      startTransmitTimerSNR]
    split <;> simp
  · simp [isChannelActive] at hbusy

/-- C4 witness: a packet in flight blocks the send and re-arms the
SNR-weighted delay of the head packet. -/
theorem C4_busy_rearms_delay_witness :
    onNotify TRANSMIT_DELAY_COMPLETED
        { txQueue := [samplePacket 3 7 5 (-20)], txQueueMaxLen := 4,
          sendingPacket := some (samplePacket 1 1 0 0),
          isReceiving := false, txGood := 0 } =
      some ({ txQueue := [samplePacket 3 7 5 (-20)], txQueueMaxLen := 4,
              sendingPacket := some (samplePacket 1 1 0 0),
              isReceiving := false, txGood := 0 },
            [Action.armDelay
              (if (samplePacket 3 7 5 (-20)).rx_snr = 0 ∧
                  (samplePacket 3 7 5 (-20)).rx_rssi = 0 then
                DelayKind.uniformRandom
               else DelayKind.snrWeighted (samplePacket 3 7 5 (-20)).rx_snr)]) :=
  C4_busy_rearms_delay (samplePacket 3 7 5 (-20)) [] _ rfl
    (Or.inl (by decide))

/-- C5: submitting one locally-originated packet (snr = 0, rssi = 0) to
an idle scheduler succeeds and arms the uniform random delay; the single
following `DelayExpired` event logs exactly one transmit airtime entry,
releases the dequeued packet back to the pool, and leaves the queue
empty with nothing in flight. -/
theorem C5_single_packet_scenario (p : MeshPacket) (s : SimState)
    (hq : s.txQueue = []) (hcap : 0 < s.txQueueMaxLen)
    (hsp : s.sendingPacket = none)
    (hsnr : p.rx_snr = 0) (hrssi : p.rx_rssi = 0) :
    ∃ s1, send p s =
        some (ErrorCode.ok, s1, [Action.armDelay DelayKind.uniformRandom]) ∧
      s1.txQueue = [p] ∧
      ∃ s2 acts, onNotify TRANSMIT_DELAY_COMPLETED s1 = some (s2, acts) ∧
        countTxLogs acts = 1 ∧ Action.release p ∈ acts ∧
        s2.txQueue = [] ∧ s2.sendingPacket = none := by
  refine ⟨{ s with txQueue := [p] }, ?_, rfl, ?_⟩
  · simp [send, enqueue, hq, hcap, setTransmitDelay, startTransmitTimer,
      hsnr, hrssi]
  · by_cases hsz : p.payloadSize ≤ compressedDataCapacity
    · refine ⟨{ txQueue := [], txQueueMaxLen := s.txQueueMaxLen,
                sendingPacket := none, isReceiving := s.isReceiving,
                txGood := s.txGood + 1 },
              [Action.sendToPhone (framedCopy p),
               Action.logAirtime LogDir.txLog
                 (getPacketTime (getPacketLength p)),
               Action.release p], ?_, by simp [countTxLogs], by simp,
              rfl, rfl⟩
      simp only [onNotify, ISR_TX, ISR_RX, TRANSMIT_DELAY_COMPLETED]
      norm_num
      simp [canSendImmediately, isActivelyReceiving, hsp, isChannelActive,
        startSend, completeSending, hsz]
    · refine ⟨{ txQueue := [], txQueueMaxLen := s.txQueueMaxLen,
                sendingPacket := none, isReceiving := s.isReceiving,
                txGood := s.txGood + 1 },
              [Action.warn, Action.sendToPhone (framedCopy p),
               Action.logAirtime LogDir.txLog
                 (getPacketTime (getPacketLength p)),
               Action.release p], ?_, by simp [countTxLogs], by simp,
              rfl, rfl⟩
      simp only [onNotify, ISR_TX, ISR_RX, TRANSMIT_DELAY_COMPLETED]
      norm_num
      simp [canSendImmediately, isActivelyReceiving, hsp, isChannelActive,
        startSend, completeSending, hsz]

/-- C5 witness: the scenario at a concrete packet and empty state. -/
theorem C5_single_packet_scenario_witness :
    ∃ s1, send (samplePacket 1 1 0 0) (idleState 4) =
        some (ErrorCode.ok, s1, [Action.armDelay DelayKind.uniformRandom]) ∧
      s1.txQueue = [samplePacket 1 1 0 0] ∧
      ∃ s2 acts, onNotify TRANSMIT_DELAY_COMPLETED s1 = some (s2, acts) ∧
        countTxLogs acts = 1 ∧
        Action.release (samplePacket 1 1 0 0) ∈ acts ∧
        s2.txQueue = [] ∧ s2.sendingPacket = none :=
  C5_single_packet_scenario (samplePacket 1 1 0 0) (idleState 4)
    rfl (by decide) rfl rfl rfl

/-- C6: whenever `send` returns a non-Ok code, the submitted packet has
already been released back to the pool (the caller must treat it as
consumed) and no enqueue has taken effect — the state is unchanged. -/
theorem C6_nonOk_releases_packet (p : MeshPacket) (s : SimState)
    (res : ErrorCode) (s2 : SimState) (acts : List Action)
    (h : send p s = some (res, s2, acts)) (hres : res ≠ ErrorCode.ok) :
    acts = [Action.release p] ∧ s2 = s := by
  by_cases hlen : s.txQueue.length < s.txQueueMaxLen
  · exfalso
    apply hres
    simp only [send, enqueue, hlen] at h
    simp at h
    rcases hsd : setTransmitDelay { s with txQueue := s.txQueue ++ [p] } with
      _ | ⟨s3, acts3⟩ <;> rw [hsd] at h <;> simp at h
    exact h.1.symm
  · simp only [send, enqueue, hlen] at h
    simp at h
    exact ⟨h.2.2.symm, h.2.1.symm⟩

/-- C6 witness: the theorem at the concrete full-queue state. -/
theorem C6_nonOk_releases_packet_witness :
    [Action.release (samplePacket 1 5 0 0)] =
      [Action.release (samplePacket 1 5 0 0)] ∧
    fullState4 = fullState4 :=
  C6_nonOk_releases_packet (samplePacket 1 5 0 0) fullState4
    ErrorCode.unknown fullState4 [Action.release (samplePacket 1 5 0 0)]
    (by rfl) (by decide)

/-- Helper: when the keyed removal finds no match, the queue is
unchanged and no element of it matches the key. -/
theorem removeByKey_none_spec (f i : Nat) (l : List MeshPacket)
    (h : (removeByKey f i l).1 = none) :
    (removeByKey f i l).2 = l ∧
    ∀ q ∈ l, ¬(q.fromNode = f ∧ q.id = i) := by
  induction l with
  | nil => simp [removeByKey]
  | cons q qs ih =>
      by_cases hm : q.fromNode = f ∧ q.id = i
      · simp [removeByKey, hm] at h
      · simp only [removeByKey, if_neg hm] at h ⊢
        rcases ih h with ⟨h1, h2⟩
        refine ⟨by rw [h1], ?_⟩
        intro r hr
        rcases List.mem_cons.mp hr with hr | hr
        · exact hr ▸ hm
        · exact h2 r hr

/-- Helper: when the keyed removal finds a match, exactly the first
matching element is excised and the relative order of the rest is
preserved. -/
theorem removeByKey_some_spec (f i : Nat) (l : List MeshPacket)
    (x : MeshPacket) (h : (removeByKey f i l).1 = some x) :
    x.fromNode = f ∧ x.id = i ∧
    ∃ pre post, l = pre ++ x :: post ∧
      (removeByKey f i l).2 = pre ++ post := by
  induction l with
  | nil => simp [removeByKey] at h
  | cons q qs ih =>
      by_cases hm : q.fromNode = f ∧ q.id = i
      · simp only [removeByKey, if_pos hm] at h ⊢
        have hx : q = x := by
          simpa using h
        subst hx
        exact ⟨hm.1, hm.2, [], qs, by simp, by simp⟩
      · simp only [removeByKey, if_neg hm] at h ⊢
        rcases ih h with ⟨h1, h2, pre, post, h3, h4⟩
        exact ⟨h1, h2, q :: pre, post, by simp [h3], by simp [h4]⟩

/-- C7: `cancelSending` never touches the in-flight packet; it removes
at most one `(origin, id)` match from the waiting queue (preserving the
order of the rest), releases exactly the removed packet, and returns
`true` exactly when a match was removed — `false` (with no release and
the queue unchanged) when the id is absent or only in flight. -/
theorem C7_cancel_spec (f i : Nat) (s : SimState) :
    (cancelSending f i s).2.1.sendingPacket = s.sendingPacket ∧
    ((cancelSending f i s).1 = false →
      (cancelSending f i s).2.1.txQueue = s.txQueue ∧
      (cancelSending f i s).2.2 = [] ∧
      ∀ q ∈ s.txQueue, ¬(q.fromNode = f ∧ q.id = i)) ∧
    ((cancelSending f i s).1 = true →
      ∃ x pre post, s.txQueue = pre ++ x :: post ∧
        x.fromNode = f ∧ x.id = i ∧
        (cancelSending f i s).2.1.txQueue = pre ++ post ∧
        (cancelSending f i s).2.2 = [Action.release x]) := by
  rcases hrk : (removeByKey f i s.txQueue).1 with _ | x
  · rcases removeByKey_none_spec f i s.txQueue hrk with ⟨h1, h2⟩
    refine ⟨by simp [cancelSending, hrk], ?_, ?_⟩
    · exact fun _ => ⟨by simp [cancelSending, hrk, h1],
        by simp [cancelSending, hrk], h2⟩
    · intro hc
      simp [cancelSending, hrk] at hc
  · rcases removeByKey_some_spec f i s.txQueue x hrk with
      ⟨h1, h2, pre, post, h3, h4⟩
    refine ⟨by simp [cancelSending, hrk], ?_, ?_⟩
    · intro hc
      simp [cancelSending, hrk] at hc
    · exact fun _ => ⟨x, pre, post, h3, h1, h2,
        by simp [cancelSending, hrk, h4], by simp [cancelSending, hrk]⟩

/-- C8: a notification outside the closed event set fails the
dispatcher's fatal assertion, and receive-completion while
`isReceiving` is not set fails its fatal assertion. -/
theorem C8_fatal_contract_violations (n : Nat) (s : SimState)
    (p : MeshPacket) (hn1 : n ≠ ISR_TX) (hn2 : n ≠ ISR_RX)
    (hn3 : n ≠ TRANSMIT_DELAY_COMPLETED) (hr : s.isReceiving = false) :
    onNotify n s = none ∧ handleReceiveInterrupt p s = none := by
  constructor
  · simp [onNotify, hn1, hn2, hn3]
  · simp [handleReceiveInterrupt, hr]

/-- C8 witness: the unrecognized notification 99 delivered to an idle
state, and receive-completion outside a reception. -/
theorem C8_fatal_contract_violations_witness :
    onNotify 99 (idleState 4) = none ∧
    handleReceiveInterrupt (samplePacket 1 1 0 0) (idleState 4) = none :=
  C8_fatal_contract_violations 99 (idleState 4) (samplePacket 1 1 0 0)
    (by decide) (by decide) (by decide) rfl

/-- C9: the envelope built for every outbound framed packet records the
original application port, while the framed copy handed to the outbound
delivery path has its port identifier overwritten with the reserved
simulator/link tag. -/
theorem C9_port_tagging (p : MeshPacket) (s : SimState) :
    (frameEnvelope p).portnum = p.portnum ∧
    (framedCopy p).portnum = PortNum_SIMULATOR_APP ∧
    Action.sendToPhone (framedCopy p) ∈ (startSend p s).2 := by
  refine ⟨?_, rfl, ?_⟩
  · by_cases h : p.payloadSize ≤ compressedDataCapacity <;>
      simp [frameEnvelope, h]
  · by_cases h : p.payloadSize ≤ compressedDataCapacity <;>
      simp [startSend, h]

/-- C10: a `TxIsrComplete` notification with no packet in flight
performs no release and no success-counter increment (the state is
returned unchanged and the only possible action is re-arming the nominal
recheck timer); and `completeSending` clears `sendingPacket` before
releasing, so a second completion releases nothing. -/
theorem C10_tx_isr_without_packet (s : SimState)
    (h : s.sendingPacket = none) :
    onNotify ISR_TX s =
      some (s, if s.txQueue.isEmpty then []
               else [Action.armDelay DelayKind.nominal]) ∧
    (∀ t : SimState, ((completeSending t).1).sendingPacket = none ∧
      (completeSending ((completeSending t).1)).2 = []) := by
  constructor
  · simp only [onNotify, if_pos rfl]
    simp [handleTransmitInterrupt, h, startTransmitTimer]
    split <;> simp_all
  · intro t
    rcases ht : t.sendingPacket with _ | q <;>
      simp [completeSending, ht]

/-- C10 witness: the theorem at a concrete idle state. -/
theorem C10_tx_isr_without_packet_witness :
    onNotify ISR_TX (idleState 4) =
      some (idleState 4, if (idleState 4).txQueue.isEmpty then []
               else [Action.armDelay DelayKind.nominal]) ∧
    (∀ t : SimState, ((completeSending t).1).sendingPacket = none ∧
      (completeSending ((completeSending t).1)).2 = []) :=
  C10_tx_isr_without_packet (idleState 4) rfl

end SimRadio
